import Mathlib

set_option maxRecDepth 40000

/-!
Verification of the configuration-reconciliation core of the
prometheus-juju-exporter charm (src/charm.py and src/exporter.py).

The embedding models Python values with the inductive `PyVal`, the exporter
configuration record with `ExporterConfig`, and the charm's `_configure`
reconciliation pass as a function from an environment of external-collaborator
outcomes and a charm state to a new state plus an observable log.
-/

/-- A dynamically-typed Python value, restricted to the shapes that occur in
the two source modules: `None`, strings, ints, bools, lists and (insertion
ordered) dicts with string keys.  Dicts are association lists; the code under
study never builds a dict with duplicate keys. -/
inductive PyVal where
  | pnone : PyVal
  | pstr : String → PyVal
  | pint : Int → PyVal
  | pbool : Bool → PyVal
  | plist : List PyVal → PyVal
  | pdict : List (String × PyVal) → PyVal

/-- Python exceptions that can escape the modelled fragments.  `valueError`
and `keyError` arise from `int()` and dict subscription in
`_validate_option_values`; `typeError` models `int(None)`/`int([])`;
`attributeError` models calling `.get`/`.split` on a non-dict/non-string;
`prometheusConfigError` is re-raised by `reconfigure_scrape_target`. -/
inductive PyErr where
  | attributeError : PyErr
  | keyError : PyErr
  | typeError : PyErr
  | valueError : PyErr
  | prometheusConfigError : PyErr
deriving DecidableEq

/-- Python truthiness (`bool(v)`) for the modelled value shapes. -/
def PyVal.truthy : PyVal → Bool
  | .pnone => false
  | .pstr s => !(s == "")
  | .pint n => !(n == 0)
  | .pbool b => b
  | .plist l => !l.isEmpty
  | .pdict d => !d.isEmpty

/-- First binding of a key in an association-list dict (Python dicts have
unique keys, so first-match lookup coincides with dict lookup). -/
def pyLookup (d : List (String × PyVal)) (k : String) : Option PyVal :=
  match d.find? (fun p => p.1 == k) with
  | some p => some p.2
  | none => none

mutual

/-- Fuel-indexed worker for Python `==` (the fuel makes the mutual recursion
structural, so the function reduces inside the kernel; `pyEq` supplies fuel
that dominates the recursion depth). -/
def pyEqF : Nat → PyVal → PyVal → Bool
  | 0, _, _ => false
  | fuel + 1, x, y =>
    match x, y with
    | .pnone, .pnone => true
    | .pstr a, .pstr b => a == b
    | .pint a, .pint b => a == b
    | .pint a, .pbool b => a == (if b then (1 : Int) else 0)
    | .pbool a, .pint b => (if a then (1 : Int) else 0) == b
    | .pbool a, .pbool b => a == b
    | .plist a, .plist b => pyEqListF fuel a b
    | .pdict a, .pdict b => Nat.beq a.length b.length && pyEqDictF fuel a b
    | _, _ => false

/-- Pointwise Python `==` on lists (fuel-indexed worker). -/
def pyEqListF : Nat → List PyVal → List PyVal → Bool
  | 0, _, _ => false
  | fuel + 1, xs, ys =>
    match xs, ys with
    | [], [] => true
    | a :: as, b :: bs => pyEqF fuel a b && pyEqListF fuel as bs
    | _, _ => false

/-- Every binding of the first dict has an equal binding in the second
(fuel-indexed worker). -/
def pyEqDictF : Nat → List (String × PyVal) → List (String × PyVal) → Bool
  | 0, _, _ => false
  | fuel + 1, xs, b =>
    match xs with
    | [] => true
    | p :: rest => pyFindEqF fuel p.1 p.2 b && pyEqDictF fuel rest b

/-- Does the dict contain a binding of key `k` whose value is `==` to `v`?
(fuel-indexed worker). -/
def pyFindEqF : Nat → String → PyVal → List (String × PyVal) → Bool
  | 0, _, _, _ => false
  | fuel + 1, k, v, b =>
    match b with
    | [] => false
    | q :: rest => (q.1 == k && pyEqF fuel v q.2) || pyFindEqF fuel k v rest

end

mutual

/-- Structural size of a value, used as recursion fuel for `pyEq`. -/
def pyDepth : PyVal → Nat
  | .pnone => 1
  | .pstr _ => 1
  | .pint _ => 1
  | .pbool _ => 1
  | .plist l => pyDepthList l + 1
  | .pdict d => pyDepthDict d + 1

/-- Structural size of a list of values. -/
def pyDepthList : List PyVal → Nat
  | [] => 1
  | x :: xs => pyDepth x + pyDepthList xs + 1

/-- Structural size of a dict of values. -/
def pyDepthDict : List (String × PyVal) → Nat
  | [] => 1
  | p :: ps => pyDepth p.2 + pyDepthDict ps + 1

end

/-- Python `==` on the modelled values: structural equality, order-insensitive
on dicts, with the numeric cross-type equalities `True == 1` and
`False == 0`.  The supplied fuel strictly dominates every chain of recursive
calls (each call strictly decreases the combined structural size), so the
worker never hits its out-of-fuel clause. -/
def pyEq (x y : PyVal) : Bool :=
  pyEqF (pyDepth x + pyDepth y + 1) x y

mutual

/-- Python `str`/`repr` of the modelled values, as produced by
`str(exporter_config)` in `_configure`.  String quoting follows CPython:
double quotes when the string contains a single quote and no double quote,
otherwise single quotes.  Escape sequences for quotes-in-both-cases, control
characters and backslashes are not modelled; no value in this development
contains them. -/
def pyRepr : PyVal → String
  | .pnone => "None"
  | .pstr s =>
      if s.toList.contains '\x27' && !(s.toList.contains '\x22')
      then "\x22" ++ s ++ "\x22"
      else "\x27" ++ s ++ "\x27"
  | .pint n => toString n
  | .pbool b => if b then "True" else "False"
  | .plist l => "[" ++ pyReprList l ++ "]"
  | .pdict d => "\x7b" ++ pyReprDict d ++ "\x7d"

/-- Comma-separated reprs of the elements of a list. -/
def pyReprList : List PyVal → String
  | [] => ""
  | [x] => pyRepr x
  | x :: xs => pyRepr x ++ ", " ++ pyReprList xs

/-- Comma-separated `'key': value` reprs of the bindings of a dict, in
insertion order. -/
def pyReprDict : List (String × PyVal) → String
  | [] => ""
  | [p] => "\x27" ++ p.1 ++ "\x27: " ++ pyRepr p.2
  | p :: ps => "\x27" ++ p.1 ++ "\x27: " ++ pyRepr p.2 ++ ", " ++ pyReprDict ps

end

/-- Decimal value of a list of digit characters. -/
def digitsToNat (l : List Char) : Nat :=
  l.foldl (fun acc c => acc * 10 + (c.toNat - 48)) 0

/-- Tail of the digit body of a Python integer literal: digits with single
underscores allowed between digits. -/
def pyIntRest : List Char → Bool
  | [] => true
  | '_' :: rest =>
      match rest with
      | c :: _ => c.isDigit && pyIntRest rest
      | [] => false
  | c :: rest => c.isDigit && pyIntRest rest

/-- Digit body of a Python integer literal: non-empty, starts with a digit,
underscores only between digits. -/
def pyIntBody : List Char → Bool
  | [] => false
  | c :: rest => c.isDigit && pyIntRest rest

/-- Strip leading and trailing whitespace from a character list (the
whitespace stripping `int()` performs on string arguments). -/
def trimChars (l : List Char) : List Char :=
  ((l.dropWhile Char.isWhitespace).reverse.dropWhile Char.isWhitespace).reverse

/-- Python `int(s)` for a string argument: surrounding whitespace stripped,
optional sign, decimal digits with optional single underscores between
digits; `none` when the string is not a valid integer literal
(`ValueError`). -/
def pyParseInt (s : String) : Option Int :=
  let cs := trimChars s.toList
  match cs with
  | '+' :: rest =>
      if pyIntBody rest
      then some (Int.ofNat (digitsToNat (rest.filter (fun c => c != '_'))))
      else none
  | '-' :: rest =>
      if pyIntBody rest
      then some (-(Int.ofNat (digitsToNat (rest.filter (fun c => c != '_')))))
      else none
  | _ =>
      if pyIntBody cs
      then some (Int.ofNat (digitsToNat (cs.filter (fun c => c != '_'))))
      else none

/-- Python `int(v)`: identity on ints, `True ↦ 1`/`False ↦ 0`, string parsing
per `pyParseInt` (raising `ValueError` on failure), `TypeError` on `None`,
lists and dicts.  Floats do not occur in the modelled code. -/
def pyInt : PyVal → Except PyErr Int
  | .pint n => .ok n
  | .pbool b => .ok (if b then (1 : Int) else 0)
  | .pstr s =>
      match pyParseInt s with
      | some n => .ok n
      | none => .error .valueError
  | .pnone => .error .typeError
  | .plist _ => .error .typeError
  | .pdict _ => .error .typeError

/-! ## SHA-256 (hashlib.sha256(...).hexdigest())

An executable SHA-256 over `Nat` bytes, used by the fingerprint computation
`hashlib.sha256(str(exporter_config).encode("utf-8")).hexdigest()` in
`_configure`.  Words are `Nat`s reduced modulo 2^32. -/

/-- Truncate to a 32-bit word. -/
def w32 (n : Nat) : Nat := n % 4294967296

/-- Right rotation of a 32-bit word. -/
def rotr (x n : Nat) : Nat := w32 ((x >>> n) ||| (x <<< (32 - n)))

/-- SHA-256 Ch function. -/
def shaCh (x y z : Nat) : Nat := (x &&& y) ^^^ ((x ^^^ 4294967295) &&& z)

/-- SHA-256 Maj function. -/
def shaMaj (x y z : Nat) : Nat := (x &&& y) ^^^ (x &&& z) ^^^ (y &&& z)

/-- SHA-256 Σ0. -/
def bigSigma0 (x : Nat) : Nat := rotr x 2 ^^^ rotr x 13 ^^^ rotr x 22

/-- SHA-256 Σ1. -/
def bigSigma1 (x : Nat) : Nat := rotr x 6 ^^^ rotr x 11 ^^^ rotr x 25

/-- SHA-256 σ0. -/
def smallSigma0 (x : Nat) : Nat := rotr x 7 ^^^ rotr x 18 ^^^ (x >>> 3)

/-- SHA-256 σ1. -/
def smallSigma1 (x : Nat) : Nat := rotr x 17 ^^^ rotr x 19 ^^^ (x >>> 10)

/-- The SHA-256 round-constant table (FIPS 180-4), written in decimal. -/
def shaK : List Nat :=
  [1116352408, 1899447441, 3049323471, 3921009573,
   961987163, 1508970993, 2453635748, 2870763221,
   3624381080, 310598401, 607225278, 1426881987,
   1925078388, 2162078206, 2614888103, 3248222580,
   3835390401, 4022224774, 264347078, 604807628,
   770255983, 1249150122, 1555081692, 1996064986,
   2554220882, 2821834349, 2952996808, 3210313671,
   3336571891, 3584528711, 113926993, 338241895,
   666307205, 773529912, 1294757372, 1396182291,
   1695183700, 1986661051, 2177026350, 2456956037,
   2730485921, 2820302411, 3259730800, 3345764771,
   3516065817, 3600352804, 4094571909, 275423344,
   430227734, 506948616, 659060556, 883997877,
   958139571, 1322822218, 1537002063, 1747873779,
   1955562222, 2024104815, 2227730452, 2361852424,
   2428436474, 2756734187, 3204031479, 3329325298]

/-- The eight SHA-256 working variables. -/
structure Sha8 where
  a : Nat
  b : Nat
  c : Nat
  d : Nat
  e : Nat
  f : Nat
  g : Nat
  h : Nat

/-- The initial SHA-256 hash state (FIPS 180-4), written in decimal. -/
def shaH0 : Sha8 :=
  ⟨1779033703, 3144134277, 1013904242, 2773480762,
   1359893119, 2600822924, 528734635, 1541459225⟩

/-- One SHA-256 round; `kw` is the 32-bit sum of the round constant and the
scheduled message word. -/
def shaRound (st : Sha8) (kw : Nat) : Sha8 :=
  let t1 := w32 (st.h + bigSigma1 st.e + shaCh st.e st.f st.g + kw)
  let t2 := w32 (bigSigma0 st.a + shaMaj st.a st.b st.c)
  ⟨w32 (t1 + t2), st.a, st.b, st.c, w32 (st.d + t1), st.e, st.f, st.g⟩

/-- Extend a 16-word block to the 64-word message schedule. -/
def extendW (w16 : List Nat) : List Nat :=
  (List.range 48).foldl
    (fun w _ =>
      let n := w.length
      w ++ [w32 (smallSigma1 (w.getD (n - 2) 0) + w.getD (n - 7) 0 +
                 smallSigma0 (w.getD (n - 15) 0) + w.getD (n - 16) 0)])
    w16

/-- Compress one 16-word block into the hash state. -/
def processBlock (hs : Sha8) (block : List Nat) : Sha8 :=
  let ks := List.zipWith (fun k x => w32 (k + x)) shaK (extendW block)
  let st := ks.foldl shaRound hs
  ⟨w32 (hs.a + st.a), w32 (hs.b + st.b), w32 (hs.c + st.c), w32 (hs.d + st.d),
   w32 (hs.e + st.e), w32 (hs.f + st.f), w32 (hs.g + st.g), w32 (hs.h + st.h)⟩

/-- Group bytes into 4-byte big-endian words. -/
def bytesToWords : List Nat → List Nat
  | b0 :: b1 :: b2 :: b3 :: rest =>
      ((b0 <<< 24) ||| (b1 <<< 16) ||| (b2 <<< 8) ||| b3) :: bytesToWords rest
  | _ => []

/-- SHA-256 padding: append `0x80`, zero bytes, and the 64-bit big-endian bit
length, to a multiple of 64 bytes. -/
def padMessage (msg : List Nat) : List Nat :=
  let len := msg.length
  let zeros := (64 + 56 - ((len + 1) % 64)) % 64
  msg ++ [128] ++ List.replicate zeros 0 ++
    (List.range 8).map (fun i => ((8 * len) >>> (56 - 8 * i)) % 256)

/-- Fuel-indexed worker splitting a byte list into 64-byte blocks (structural
recursion on the fuel keeps the function kernel-reducible). -/
def chunk64F : Nat → List Nat → List (List Nat)
  | 0, _ => []
  | _, [] => []
  | fuel + 1, b :: bs => (b :: bs).take 64 :: chunk64F fuel ((b :: bs).drop 64)

/-- Split a byte list into 64-byte blocks. -/
def chunk64 (l : List Nat) : List (List Nat) :=
  chunk64F l.length l

/-- SHA-256 of a byte list, as the final eight-word state. -/
def sha256Words (msg : List Nat) : Sha8 :=
  (chunk64 (padMessage msg)).foldl (fun hs block => processBlock hs (bytesToWords block)) shaH0

/-- One lowercase hexadecimal digit. -/
def hexDigit (n : Nat) : Char :=
  if n < 10 then Char.ofNat (48 + n) else Char.ofNat (87 + n)

/-- Lowercase 8-digit hexadecimal rendering of a 32-bit word. -/
def wordToHex (w : Nat) : String :=
  String.mk ((List.range 8).map (fun i => hexDigit ((w >>> (28 - 4 * i)) % 16)))

/-- `hashlib.sha256(bytes).hexdigest()`. -/
def sha256Hex (msg : List Nat) : String :=
  let d := sha256Words msg
  wordToHex d.a ++ wordToHex d.b ++ wordToHex d.c ++ wordToHex d.d ++
  wordToHex d.e ++ wordToHex d.f ++ wordToHex d.g ++ wordToHex d.h

/-- UTF-8 encoding of one character. -/
def utf8Char (c : Char) : List Nat :=
  let n := c.toNat
  if n < 128 then [n]
  else if n < 2048 then [192 + n / 64, 128 + n % 64]
  else if n < 65536 then [224 + n / 4096, 128 + (n / 64) % 64, 128 + n % 64]
  else [240 + n / 262144, 128 + (n / 4096) % 64, 128 + (n / 64) % 64, 128 + n % 64]

/-- `str.encode("utf-8")` as a byte list. -/
def utf8Bytes (s : String) : List Nat :=
  (s.toList.map utf8Char).flatten

/-- The charm's configuration fingerprint, from `_configure`:
`hashlib.sha256(str(exporter_config).encode("utf-8")).hexdigest()`. -/
def fingerprint (doc : PyVal) : String :=
  sha256Hex (utf8Bytes (pyRepr doc))

/-! ## String helpers shared by both modules -/

/-- `os.linesep` on the Linux hosts this charm targets. -/
def linesep : String := "\n"

/-- Split a character list on a separator character (worker for Python
`str.split(sep)` with a one-character separator); the accumulator holds the
current field reversed. -/
def splitSepF (sep : Char) : List Char → List Char → List String
  | acc, [] => [String.mk acc.reverse]
  | acc, c :: rest =>
      if c == sep then String.mk acc.reverse :: splitSepF sep [] rest
      else splitSepF sep (c :: acc) rest

/-- Python `s.split(",")`: fields between commas, no trimming; the empty
string yields `[""]`. -/
def splitComma (s : String) : List String :=
  splitSepF ',' [] s.toList

/-- Python `s.split(".")`, used on the dotted option paths of
`_REQUIRED_CONFIG`. -/
def splitDot (s : String) : List String :=
  splitSepF '.' [] s.toList

/-- Fuel-indexed worker for Python `str.replace`: replace non-overlapping
occurrences of `pat` left to right. -/
def replaceF : Nat → List Char → List Char → List Char → List Char
  | 0, s, _, _ => s
  | _, [], _, _ => []
  | fuel + 1, c :: rest, pat, rep =>
      if pat.isPrefixOf (c :: rest)
      then rep ++ replaceF fuel ((c :: rest).drop pat.length) pat rep
      else c :: replaceF fuel rest pat rep

/-- Python `s.replace(pat, rep)` for a non-empty pattern (every pattern used
by the charm is non-empty). -/
def pyReplace (s pat rep : String) : String :=
  String.mk (replaceF s.toList.length s.toList pat.toList rep.toList)

/-! ## exporter.py: ExporterConfig -/

/-- The `ExporterConfig` NamedTuple of exporter.py.  The NamedTuple declares
every field `Optional[str]`, but the charm passes raw charm-config values
through unchanged (booleans for `debug`, integers for `interval`/`port`), so
fields are modelled as arbitrary Python values defaulting to `None`. -/
structure ExporterConfig where
  debug : PyVal
  customer : PyVal
  cloud : PyVal
  controller : PyVal
  ca_cert : PyVal
  user : PyVal
  password : PyVal
  interval : PyVal
  port : PyVal
  prefixes : PyVal
  match_interfaces : PyVal

/-- Python `v.split(",")` on a modelled value: splits a string into a list of
strings, raises `AttributeError` on non-strings. -/
def pySplitComma : PyVal → Except PyErr PyVal
  | .pstr s => .ok (.plist ((splitComma s).map PyVal.pstr))
  | _ => .error .attributeError

/-- `ExporterConfig.controller_endpoint`: the empty string when `controller`
is `None` or `""`, otherwise `controller.split(",")` (the snap-version branch
of the original property collapsed to the list case, as in this tree). -/
def ExporterConfig.controller_endpoint (c : ExporterConfig) : Except PyErr PyVal :=
  match c.controller with
  | .pnone => .ok (.pstr "")
  | .pstr s => if s = "" then .ok (.pstr "") else pySplitComma (.pstr s)
  | v => pySplitComma v

/-- The `detection.virt_macs` expression of `render`:
`self.prefixes.split(",") if self.prefixes else []`. -/
def ExporterConfig.virt_macs (c : ExporterConfig) : Except PyErr PyVal :=
  if c.prefixes.truthy then pySplitComma c.prefixes else .ok (.plist [])

/-- The `detection.match_interfaces` expression of `render`:
`self.match_interfaces or ".*"` (Python `or` keeps the left operand when it
is truthy). -/
def ExporterConfig.match_interfaces_val (c : ExporterConfig) : PyVal :=
  if c.match_interfaces.truthy then c.match_interfaces else .pstr ".*"

/-- `ExporterConfig.render`: the nested configuration document written to the
exporter config file. -/
def ExporterConfig.render (c : ExporterConfig) : Except PyErr PyVal :=
  match c.controller_endpoint with
  | .error e => .error e
  | .ok endpoints =>
      match c.virt_macs with
      | .error e => .error e
      | .ok macs =>
          .ok (.pdict
            [("debug", c.debug),
             ("customer", .pdict [("name", c.customer), ("cloud_name", c.cloud)]),
             ("juju", .pdict
                [("controller_endpoint", endpoints),
                 ("controller_cacert", c.ca_cert),
                 ("username", c.user),
                 ("password", c.password)]),
             ("exporter", .pdict [("collect_interval", c.interval), ("port", c.port)]),
             ("detection", .pdict
                [("virt_macs", macs),
                 ("match_interfaces", c.match_interfaces_val)])])

/-! ## exporter.py: ExporterOCI validation -/

/-- `ExporterOCI._REQUIRED_CONFIG`. -/
def REQUIRED_CONFIG : List String :=
  ["customer.name", "customer.cloud_name", "juju.controller_endpoint",
   "juju.controller_cacert", "juju.username", "juju.password",
   "exporter.port", "exporter.collect_interval", "detection.virt_macs",
   "detection.match_interfaces"]

/-- Python `v.get(k, {})`: dict lookup defaulting to the empty dict;
`AttributeError` when the receiver is not a dict. -/
def pyGetD : PyVal → String → Except PyErr PyVal
  | .pdict d, k => .ok ((pyLookup d k).getD (.pdict []))
  | _, _ => .error .attributeError

/-- The traversal loop of `_validate_required_options`:
`for identifier in option.split("."): config_value = config_value.get(identifier, {})`. -/
def lookupPath : PyVal → List String → Except PyErr PyVal
  | v, [] => .ok v
  | v, k :: rest =>
      match pyGetD v k with
      | .error e => .error e
      | .ok v2 => lookupPath v2 rest

/-- The option loop of `_validate_required_options`, collecting in order the
options whose value is falsy. -/
def requiredMissing : List String → PyVal → Except PyErr (List String)
  | [], _ => .ok []
  | opt :: rest, cfg =>
      match lookupPath cfg (splitDot opt) with
      | .error e => .error e
      | .ok v =>
          match requiredMissing rest cfg with
          | .error e => .error e
          | .ok ms => .ok (if v.truthy then ms else opt :: ms)

/-- `ExporterOCI._validate_required_options`: an option is reported missing
whenever the value found at its dotted path is falsy (`if not config_value`),
so present-but-falsy values count as missing. -/
def validate_required_options (config : PyVal) : Except PyErr (List String) :=
  requiredMissing REQUIRED_CONFIG config

/-- Python `v[k]`: dict subscription raising `KeyError` when the key is
absent and `TypeError` on non-dict receivers. -/
def pyIndex : PyVal → String → Except PyErr PyVal
  | .pdict d, k =>
      match pyLookup d k with
      | some v => .ok v
      | none => .error .keyError
  | _, _ => .error .typeError

/-- `int(config[k1][k2])` as evaluated inside `_validate_option_values`. -/
def intAt (config : PyVal) (k1 k2 : String) : Except PyErr Int :=
  match pyIndex config k1 with
  | .error e => .error e
  | .ok v1 =>
      match pyIndex v1 k2 with
      | .error e => .error e
      | .ok v2 => pyInt v2

/-- The `port` block of `_validate_option_values`: `KeyError` is swallowed,
`ValueError` becomes the numeric-format violation, an in-range port yields no
violation and an out-of-range port yields the invalid-port violation.  Other
exceptions (for example `TypeError` from `int(None)`) propagate. -/
def portCheck (config : PyVal) : Except PyErr String :=
  match intAt config "exporter" "port" with
  | .ok port =>
      .ok (if 0 < port ∧ port < 65535 then ""
           else "Port " ++ toString port ++ " is not valid port number." ++ linesep)
  | .error .valueError =>
      .ok ("Configuration option \x27port\x27 must be a number." ++ linesep)
  | .error .keyError => .ok ""
  | .error e => .error e

/-- The `collect_interval` block of `_validate_option_values`. -/
def intervalCheck (config : PyVal) : Except PyErr String :=
  match intAt config "exporter" "collect_interval" with
  | .ok collect_interval =>
      .ok (if collect_interval < 1
           then "Configuration option \x27collect_interval\x27 must be a positive number." ++ linesep
           else "")
  | .error .valueError =>
      .ok ("Configuration option \x27collect_interval\x27 must be a number." ++ linesep)
  | .error .keyError => .ok ""
  | .error e => .error e

/-- `ExporterOCI._validate_option_values`: the concatenation of the port and
collect-interval violation texts. -/
def validate_option_values (config : PyVal) : Except PyErr String :=
  match portCheck config with
  | .error e => .error e
  | .ok e1 =>
      match intervalCheck config with
      | .error e => .error e
      | .ok e2 => .ok (e1 ++ e2)

/-- `ExporterOCI.validate_config`: collects the missing-options line and the
value violations; `.ok none` models a passed validation, `.ok (some msg)`
models `raise ExporterConfigError(msg)`, and `.error e` models any other
(uncaught) Python exception. -/
def validate_config (config : PyVal) : Except PyErr (Option String) :=
  match validate_required_options config with
  | .error e => .error e
  | .ok missing =>
      let errors :=
        if missing.isEmpty then ""
        else "Following config options are missing: " ++ String.intercalate ", " missing ++ linesep
      match validate_option_values config with
      | .error e => .error e
      | .ok ev =>
          let errors := errors ++ ev
          .ok (if errors = "" then none else some errors)

/-- `ExporterOCI.apply_config`: validate, then serialise the document for the
configuration target.  The YAML serialisation is performed by the external
`yaml` library, so the model carries the validated document itself as the
payload that gets written; `.ok (.error msg)` models the raised
`ExporterConfigError`. -/
def apply_config (config : PyVal) : Except PyErr (Except String PyVal) :=
  match validate_config config with
  | .error e => .error e
  | .ok (some msg) => .ok (.error msg)
  | .ok none => .ok (.ok config)

/-! ## charm.py: the `_configure` reconciliation pass

External collaborators (the Pebble container, the raw charm-config source,
the Prometheus relation and hookenv ports) are modelled by a `PassEnv` record
of per-pass outcomes; `CharmState` carries the controller state that persists
between passes; `PassLog` records the externally observable actions of one
pass. -/

/-- The unit statuses written by `_configure`/`restart_pje` (`ops.model`
status values). -/
inductive Status where
  | active : Status
  | blocked : String → Status
  | maintenance : String → Status
  | waiting : String → Status
deriving DecidableEq

/-- `isinstance(status, ActiveStatus)`. -/
def Status.isActive : Status → Bool
  | .active => true
  | _ => false

/-- Is the status a `BlockedStatus`? -/
def Status.isBlocked : Status → Bool
  | .blocked _ => true
  | _ => false

/-- Controller state persisting across reconciliation passes:
`self.current_config_hash` (None at process start), the unit status last
written to the status sink, the content last pushed to
`OCI_CONFIG_PATH`, and the services map of the container's installed Pebble
plan. -/
structure CharmState where
  current_config_hash : Option String
  unit_status : Status
  container_config : Option PyVal
  plan_services : List (String × PyVal)

/-- Per-pass outcomes of the external collaborators: whether the Pebble
container is reachable (`can_connect`), whether `container.push` succeeds
(`ConnectionError` when false), whether `container.add_layer` and
`container.restart` succeed, the text of the supervisor exception when one of
them fails, and whether `expose_scrape_target` succeeds
(`PrometheusConfigError`, re-raised, when false). -/
structure PassEnv where
  can_connect : Bool
  push_ok : Bool
  add_layer_ok : Bool
  restart_ok : Bool
  restart_exc : String
  scrape_ok : Bool

/-- Externally observable actions of one pass: successful `container.push`
calls, entries into `restart_pje`, successful `container.restart` calls,
status-sink writes, and `logger.error` messages in order. -/
structure PassLog where
  pushes : Nat
  restart_attempts : Nat
  restarts : Nat
  status_writes : Nat
  errors_logged : List String

/-- The log of a pass that has performed no observable action yet. -/
def emptyLog : PassLog := ⟨0, 0, 0, 0, []⟩

/-- `PrometheusJujuExporterCharm.OCI_CONFIG_MAP`, in insertion order:
charm option name ↦ snap/OCI option name. -/
def OCI_CONFIG_MAP : List (String × String) :=
  [("debug", "debug"),
   ("customer", "customer.name"),
   ("cloud-name", "customer.cloud_name"),
   ("controller-url", "juju.controller_endpoint"),
   ("juju-user", "juju.username"),
   ("juju-password", "juju.password"),
   ("scrape-interval", "exporter.collect_interval"),
   ("scrape-port", "exporter.port"),
   ("virtual-macs", "detection.virt_macs"),
   ("match-interfaces", "detection.match_interfaces")]

/-- The error-message rewriting loop of `_configure`: each snap config name
is replaced by its charm equivalent, iterating `OCI_CONFIG_MAP` in insertion
order. -/
def translateErr (msg : String) : String :=
  OCI_CONFIG_MAP.foldl (fun m p => pyReplace m p.2 p.1) msg

/-- The services map of `PrometheusJujuExporterCharm._build_layer()`. -/
def build_layer_services : List (String × PyVal) :=
  [("pje", .pdict
     [("override", .pstr "replace"),
      ("summary", .pstr "prometheus-juju-exporter service"),
      ("command", .pstr "/bin/python3 -m prometheus_juju_exporter.cli"),
      ("startup", .pstr "enabled")])]

/-- Install or replace one service entry in a Pebble plan's services map. -/
def setService (plan : List (String × PyVal)) (k : String) (v : PyVal) :
    List (String × PyVal) :=
  if plan.any (fun p => p.1 == k) then plan.map (fun p => if p.1 == k then (k, v) else p)
  else plan ++ [(k, v)]

/-- `container.add_layer(name, layer, combine=True)` with per-service
`override: replace`: every service of the layer replaces the same-named
service of the installed plan. -/
def combineServices (plan layer : List (String × PyVal)) : List (String × PyVal) :=
  layer.foldl (fun acc p => setService acc p.1 p.2) plan

/-- The `logger.error` text of the `ConnectionError` handler in
`_configure`. -/
def pushFailMsg : String :=
  "Could not push datasource config. Pebble refused connection. Shutting down?"

/-- The `logger.error` text of the exception handler in `restart_pje`. -/
def restartFailMsg (env : PassEnv) : String :=
  "Could not restart prometheus-juju-exporter and build new layer: " ++ env.restart_exc

/-- `PrometheusJujuExporterCharm.restart_pje`: add the built layer
(combine=true) and restart the service, moving to `Active`; any supervisor
exception is only logged (`logger.error`), leaving status and state as they
were at the point of failure. -/
def restart_pje (env : PassEnv) (s : CharmState) (lg : PassLog) :
    CharmState × PassLog :=
  if env.add_layer_ok then
    let s2 := { s with plan_services := combineServices s.plan_services build_layer_services }
    if env.restart_ok then
      ({ s2 with unit_status := .active },
       { lg with restarts := lg.restarts + 1, status_writes := lg.status_writes + 1 })
    else
      (s2, { lg with errors_logged := lg.errors_logged ++ [restartFailMsg env] })
  else
    (s, { lg with errors_logged := lg.errors_logged ++ [restartFailMsg env] })

/-- The no-restart tail of `_configure`: move to `Active` only when the
current status is not already `ActiveStatus`. -/
def maybeSetActive (s : CharmState) (lg : PassLog) : CharmState × PassLog :=
  if s.unit_status.isActive then (s, lg)
  else ({ s with unit_status := .active },
        { lg with status_writes := lg.status_writes + 1 })

/-- The tail of `_configure` after the apply step: OR the
process-definition diff into the restart flag
(`get_plan().services != _build_layer().services`, Python dict inequality),
re-raise a scrape-target configuration failure, then either run
`restart_pje` or fall through to the conditional `Active` write.
`reconfigure_open_ports` only talks to hookenv and is not modelled. -/
def afterApply (env : PassEnv) (s : CharmState) (lg : PassLog) (restart0 : Bool) :
    Except PyErr (CharmState × PassLog) :=
  let restart := restart0 ||
    !(pyEq (.pdict s.plan_services) (.pdict build_layer_services))
  if env.scrape_ok = false then .error .prometheusConfigError
  else if restart then
    .ok (restart_pje env s { lg with restart_attempts := lg.restart_attempts + 1 })
  else .ok (maybeSetActive s lg)

/-- `PrometheusJujuExporterCharm._configure`, one reconciliation pass.
Returns the new controller state and the pass's observable log, or the
uncaught Python exception.  The rendered document is produced by
`generate_exporter_config` from the pass's raw options (modelled as the
`ExporterConfig` argument, the CA certificate already resolved); the
fingerprint comparison, apply/`push`, error handling, definition diff and
restart decision follow the source line by line. -/
def configurePass (cfg : ExporterConfig) (env : PassEnv) (s0 : CharmState) :
    Except PyErr (CharmState × PassLog) :=
  if env.can_connect = false then .ok (s0, emptyLog)
  else
    let s1 := { s0 with unit_status := Status.maintenance "Processing new charm configuration." }
    let lg1 := { emptyLog with status_writes := 1 }
    match cfg.render with
    | .error e => .error e
    | .ok exporter_config =>
        let h := fingerprint exporter_config
        if some h ≠ s1.current_config_hash then
          match apply_config exporter_config with
          | .error e => .error e
          | .ok (.error errmsg) =>
              let err_msg := translateErr errmsg
              .ok ({ s1 with unit_status := Status.blocked "Invalid configuration. Please see logs." },
                   { lg1 with
                      errors_logged := lg1.errors_logged ++ [err_msg],
                      status_writes := lg1.status_writes + 1 })
          | .ok (.ok config_data) =>
              if env.push_ok then
                afterApply env
                  { s1 with container_config := some config_data, current_config_hash := some h }
                  { lg1 with pushes := lg1.pushes + 1 } true
              else
                afterApply env s1
                  { lg1 with errors_logged := lg1.errors_logged ++ [pushFailMsg] } true
        else afterApply env s1 lg1 false

/-! ## Concrete fixtures used by witnesses and counterexamples -/

/-- A fully valid raw configuration snapshot. -/
def cfg_ok : ExporterConfig :=
  ⟨.pbool false, .pstr "cust", .pstr "cl", .pstr "10.0.0.1:17070",
   .pstr "CERT", .pstr "admin", .pstr "pw", .pint 5, .pint 9990,
   .pstr "52:54:00", .pstr ""⟩

/-- The document rendered from `cfg_ok`. -/
def doc_ok : PyVal :=
  .pdict
    [("debug", .pbool false),
     ("customer", .pdict [("name", .pstr "cust"), ("cloud_name", .pstr "cl")]),
     ("juju", .pdict
        [("controller_endpoint", .plist [.pstr "10.0.0.1:17070"]),
         ("controller_cacert", .pstr "CERT"),
         ("username", .pstr "admin"),
         ("password", .pstr "pw")]),
     ("exporter", .pdict [("collect_interval", .pint 5), ("port", .pint 9990)]),
     ("detection", .pdict
        [("virt_macs", .plist [.pstr "52:54:00"]),
         ("match_interfaces", .pstr ".*")])]

/-- `doc_ok` with the same bindings but the `debug` key moved to the end:
structurally equal to `doc_ok` as a Python dict, different key order. -/
def doc_perm : PyVal :=
  .pdict
    [("customer", .pdict [("name", .pstr "cust"), ("cloud_name", .pstr "cl")]),
     ("juju", .pdict
        [("controller_endpoint", .plist [.pstr "10.0.0.1:17070"]),
         ("controller_cacert", .pstr "CERT"),
         ("username", .pstr "admin"),
         ("password", .pstr "pw")]),
     ("exporter", .pdict [("collect_interval", .pint 5), ("port", .pint 9990)]),
     ("detection", .pdict
        [("virt_macs", .plist [.pstr "52:54:00"]),
         ("match_interfaces", .pstr ".*")]),
     ("debug", .pbool false)]

/-- `cfg_ok` with the customer name unset: renders fine, fails validation
with exactly one missing option. -/
def cfg_c1 : ExporterConfig :=
  ⟨.pbool false, .pnone, .pstr "cl", .pstr "10.0.0.1:17070",
   .pstr "CERT", .pstr "admin", .pstr "pw", .pint 5, .pint 9990,
   .pstr "52:54:00", .pstr ""⟩

/-- The document rendered from `cfg_c1`. -/
def doc_c1 : PyVal :=
  .pdict
    [("debug", .pbool false),
     ("customer", .pdict [("name", .pnone), ("cloud_name", .pstr "cl")]),
     ("juju", .pdict
        [("controller_endpoint", .plist [.pstr "10.0.0.1:17070"]),
         ("controller_cacert", .pstr "CERT"),
         ("username", .pstr "admin"),
         ("password", .pstr "pw")]),
     ("exporter", .pdict [("collect_interval", .pint 5), ("port", .pint 9990)]),
     ("detection", .pdict
        [("virt_macs", .plist [.pstr "52:54:00"]),
         ("match_interfaces", .pstr ".*")])]

/-- The spec's missing-required-field scenario: raw options omitting the
customer name, with the scrape port set to the string "99999". -/
def cfg_c8 : ExporterConfig :=
  ⟨.pbool false, .pnone, .pstr "cl", .pstr "10.0.0.1:17070",
   .pstr "CERT", .pstr "admin", .pstr "pw", .pint 5, .pstr "99999",
   .pstr "52:54:00", .pstr ""⟩

/-- The document rendered from `cfg_c8`. -/
def doc_c8 : PyVal :=
  .pdict
    [("debug", .pbool false),
     ("customer", .pdict [("name", .pnone), ("cloud_name", .pstr "cl")]),
     ("juju", .pdict
        [("controller_endpoint", .plist [.pstr "10.0.0.1:17070"]),
         ("controller_cacert", .pstr "CERT"),
         ("username", .pstr "admin"),
         ("password", .pstr "pw")]),
     ("exporter", .pdict [("collect_interval", .pint 5), ("port", .pstr "99999")]),
     ("detection", .pdict
        [("virt_macs", .plist [.pstr "52:54:00"]),
         ("match_interfaces", .pstr ".*")])]

/-- A configuration document whose `exporter` table carries only a port, so
only the port block of `_validate_option_values` fires. -/
def doc_port_only (v : PyVal) : PyVal :=
  .pdict [("exporter", .pdict [("port", v)])]

/-- The document rendered from `cfg_ok` with the port replaced by an
arbitrary value. -/
def doc_with_port (v : PyVal) : PyVal :=
  .pdict
    [("debug", .pbool false),
     ("customer", .pdict [("name", .pstr "cust"), ("cloud_name", .pstr "cl")]),
     ("juju", .pdict
        [("controller_endpoint", .plist [.pstr "10.0.0.1:17070"]),
         ("controller_cacert", .pstr "CERT"),
         ("username", .pstr "admin"),
         ("password", .pstr "pw")]),
     ("exporter", .pdict [("collect_interval", .pint 5), ("port", v)]),
     ("detection", .pdict
        [("virt_macs", .plist [.pstr "52:54:00"]),
         ("match_interfaces", .pstr ".*")])]

/-- An environment in which every external collaborator succeeds. -/
def env_ok : PassEnv := ⟨true, true, true, true, "boom", true⟩

/-- Controller state at process start: no stored fingerprint, nothing
pushed, an empty Pebble plan. -/
def s0_fresh : CharmState := ⟨none, .waiting "agent initializing", none, []⟩

/-! ## Theorems -/

example : sha256Hex (utf8Bytes "abc") =
    "ba7816bf8f01cfea414140de5dae2223b00361a396177a9cb410ff61f20015ad" := by
  decide

example : cfg_ok.render = .ok doc_ok := rfl
example : cfg_c1.render = .ok doc_c1 := rfl
example : cfg_c8.render = .ok doc_c8 := rfl
example : validate_config doc_ok = .ok none := rfl
example : validate_config doc_c1 =
  .ok (some ("Following config options are missing: customer.name" ++ linesep)) := rfl

/-- C2 counterexample: the code does not trim split elements (controller
`"10.0.0.1, 10.0.0.2"` renders the second endpoint as `" 10.0.0.2"` with its
leading space kept), and an empty controller string renders
`juju.controller_endpoint` as the empty *string*, not an empty list. -/
theorem C2_counterexample :
    (ExporterConfig.mk .pnone .pnone .pnone (.pstr "10.0.0.1, 10.0.0.2")
        .pnone .pnone .pnone .pnone .pnone .pnone .pnone).controller_endpoint
      = .ok (.plist [.pstr "10.0.0.1", .pstr " 10.0.0.2"])
    ∧ PyVal.pstr " 10.0.0.2" ≠ PyVal.pstr "10.0.0.2"
    ∧ (ExporterConfig.mk .pnone .pnone .pnone (.pstr "")
        .pnone .pnone .pnone .pnone .pnone .pnone .pnone).controller_endpoint
      = .ok (.pstr "")
    ∧ PyVal.pstr "" ≠ PyVal.plist [] := by
  refine ⟨rfl, ?_, rfl, ?_⟩
  · intro h
    injection h with h1
    exact absurd h1 (by decide)
  · intro h
    exact PyVal.noConfusion h

/-- C2 (amended): rendering splits the comma-separated controller and
mac-prefix values on ',' WITHOUT trimming the elements; a `None` or empty
controller yields the empty string (not a list, and never `[""]`), and a
falsy mac-prefix value yields an empty list. -/
theorem C2_amended :
    (∀ c : ExporterConfig, c.controller = .pnone →
       c.controller_endpoint = .ok (.pstr ""))
  ∧ (∀ c : ExporterConfig, c.controller = .pstr "" →
       c.controller_endpoint = .ok (.pstr ""))
  ∧ (∀ (c : ExporterConfig) (s : String), c.controller = .pstr s → s ≠ "" →
       c.controller_endpoint = .ok (.plist ((splitComma s).map PyVal.pstr)))
  ∧ (∀ c : ExporterConfig, c.prefixes = .pnone → c.virt_macs = .ok (.plist []))
  ∧ (∀ c : ExporterConfig, c.prefixes = .pstr "" → c.virt_macs = .ok (.plist []))
  ∧ (∀ (c : ExporterConfig) (p : String), c.prefixes = .pstr p → p ≠ "" →
       c.virt_macs = .ok (.plist ((splitComma p).map PyVal.pstr)))
  ∧ (∀ (c : ExporterConfig) (endpoints macs : PyVal),
       c.controller_endpoint = .ok endpoints → c.virt_macs = .ok macs →
       c.render = .ok (.pdict
         [("debug", c.debug),
          ("customer", .pdict [("name", c.customer), ("cloud_name", c.cloud)]),
          ("juju", .pdict
             [("controller_endpoint", endpoints),
              ("controller_cacert", c.ca_cert),
              ("username", c.user),
              ("password", c.password)]),
          ("exporter", .pdict [("collect_interval", c.interval), ("port", c.port)]),
          ("detection", .pdict
             [("virt_macs", macs),
              ("match_interfaces", c.match_interfaces_val)])])) := by
  refine ⟨?_, ?_, ?_, ?_, ?_, ?_, ?_⟩
  · intro c hc
    simp [ExporterConfig.controller_endpoint, hc]
  · intro c hc
    simp [ExporterConfig.controller_endpoint, hc]
  · intro c s hc hs
    simp [ExporterConfig.controller_endpoint, hc, hs, pySplitComma]
  · intro c hp
    simp [ExporterConfig.virt_macs, hp, PyVal.truthy]
  · intro c hp
    simp [ExporterConfig.virt_macs, hp, PyVal.truthy]
  · intro c p hp hne
    simp [ExporterConfig.virt_macs, hp, PyVal.truthy, hne, pySplitComma]
  · intro c endpoints macs h1 h2
    simp [ExporterConfig.render, h1, h2]

/-- A string ending in the line separator is never empty (every violation
message ends in `os.linesep`). -/
theorem append_linesep_ne_empty (a : String) : a ++ linesep ≠ "" := by
  intro h
  have h2 := congrArg String.length h
  rw [String.length_append, String.length_empty] at h2
  have h3 : linesep.length = 1 := rfl
  omega

/-- A string with the line separator in the middle is never empty. -/
theorem append3_linesep_ne_empty (a b : String) : a ++ linesep ++ b ≠ "" := by
  intro h
  have h2 := congrArg String.length h
  rw [String.length_append, String.length_append, String.length_empty] at h2
  have h3 : linesep.length = 1 := rfl
  omega

/-- `int()` never raises `KeyError`. -/
theorem pyInt_ne_keyError (v : PyVal) : pyInt v ≠ .error .keyError := by
  cases v <;> simp [pyInt]
  case pstr s => cases pyParseInt s <;> simp

/-- `_validate_option_values` on a document whose `exporter` table has only a
port: the collect-interval block is skipped via `KeyError`, leaving exactly
the port block's verdict on `int(config["exporter"]["port"])`. -/
theorem vov_port_only (v : PyVal) : validate_option_values (doc_port_only v) =
    match pyInt v with
    | .ok port =>
        .ok (if 0 < port ∧ port < 65535 then ""
             else "Port " ++ toString port ++ " is not valid port number." ++ linesep)
    | .error .valueError =>
        .ok ("Configuration option \x27port\x27 must be a number." ++ linesep)
    | .error .keyError => .ok ""
    | .error e => .error e := by
  rcases hv : pyInt v with e | n
  · cases e <;>
      simp [validate_option_values, portCheck, intervalCheck, intAt, doc_port_only,
            pyIndex, pyLookup, hv, String.append_empty]
  · simp [validate_option_values, portCheck, intervalCheck, intAt, doc_port_only,
          pyIndex, pyLookup, hv, String.append_empty]

/-- C2 amended witness: the split/empty behavior evaluated at concrete
inputs. -/
theorem C2_amended_witness :
    (ExporterConfig.mk .pnone .pnone .pnone (.pstr "a,b")
        .pnone .pnone .pnone .pnone .pnone .pnone .pnone).controller_endpoint
      = .ok (.plist ((splitComma "a,b").map PyVal.pstr))
    ∧ cfg_ok.virt_macs = .ok (.plist ((splitComma "52:54:00").map PyVal.pstr)) :=
  ⟨C2_amended.2.2.1 _ "a,b" rfl (by decide),
   C2_amended.2.2.2.2.2.1 cfg_ok "52:54:00" rfl (by decide)⟩

example : (ExporterConfig.mk (.pbool false) (.pstr "cust") (.pstr "cl") (.pstr "10.0.0.1:17070,10.0.0.2:17070")
    (.pstr "CERT") (.pstr "admin") (.pstr "pw") (.pint 5) (.pint 9990) (.pstr "52:54:00") (.pstr "")).render =
  .ok (.pdict
    [("debug", .pbool false),
     ("customer", .pdict [("name", .pstr "cust"), ("cloud_name", .pstr "cl")]),
     ("juju", .pdict
        [("controller_endpoint", .plist [.pstr "10.0.0.1:17070", .pstr "10.0.0.2:17070"]),
         ("controller_cacert", .pstr "CERT"),
         ("username", .pstr "admin"),
         ("password", .pstr "pw")]),
     ("exporter", .pdict [("collect_interval", .pint 5), ("port", .pint 9990)]),
     ("detection", .pdict
        [("virt_macs", .plist [.pstr "52:54:00"]),
         ("match_interfaces", .pstr ".*")])]) := rfl
example : validate_config (.pdict
    [("debug", .pbool false),
     ("customer", .pdict [("name", .pstr "cust"), ("cloud_name", .pstr "cl")]),
     ("juju", .pdict
        [("controller_endpoint", .plist [.pstr "10.0.0.1:17070"]),
         ("controller_cacert", .pstr "CERT"),
         ("username", .pstr "admin"),
         ("password", .pstr "pw")]),
     ("exporter", .pdict [("collect_interval", .pint 5), ("port", .pint 9990)]),
     ("detection", .pdict
        [("virt_macs", .plist [.pstr "52:54:00"]),
         ("match_interfaces", .pstr ".*")])]) = .ok none := rfl
example : validate_config (.pdict
    [("debug", .pbool false),
     ("customer", .pdict [("name", .pnone), ("cloud_name", .pstr "cl")]),
     ("juju", .pdict
        [("controller_endpoint", .plist [.pstr "10.0.0.1:17070"]),
         ("controller_cacert", .pstr "CERT"),
         ("username", .pstr "admin"),
         ("password", .pstr "pw")]),
     ("exporter", .pdict [("collect_interval", .pint 5), ("port", .pstr "99999")]),
     ("detection", .pdict
        [("virt_macs", .plist [.pstr "52:54:00"]),
         ("match_interfaces", .pstr ".*")])]) =
  .ok (some ("Following config options are missing: customer.name" ++ linesep ++
             "Port 99999 is not valid port number." ++ linesep)) := rfl
example : pyReplace "Following config options are missing: customer.name\n" "customer.name" "customer" =
  "Following config options are missing: customer\n" := rfl
example : pyRepr (.pdict [("a", .pint 1), ("b", .plist [.pnone, .pbool true])]) =
    "\x7b\x27a\x27: 1, \x27b\x27: [None, True]\x7d" := by decide
example : pyEq (.pdict [("a", .pint 1), ("b", .pint 2)]) (.pdict [("b", .pint 2), ("a", .pint 1)]) = true := by decide
example : pyParseInt " 99999 " = some 99999 := by decide
example : pyParseInt "abc" = none := by decide
example : pyParseInt "-1_0" = some (-10) := by decide

/-- C7 (confirmed): validation accepts a port value exactly when `int()`
yields an integer strictly between 0 and 65535; 0 and 65535 themselves are
rejected with the invalid-port-number violation, a non-numeric string gets
the distinct numeric-format violation. -/
theorem C7_port_validation :
    (∀ v : PyVal, validate_option_values (doc_port_only v) = .ok "" ↔
       ∃ n : Int, pyInt v = .ok n ∧ 0 < n ∧ n < 65535)
  ∧ validate_option_values (doc_port_only (.pint 0)) =
      .ok ("Port 0 is not valid port number." ++ linesep)
  ∧ validate_option_values (doc_port_only (.pint 65535)) =
      .ok ("Port 65535 is not valid port number." ++ linesep)
  ∧ validate_option_values (doc_port_only (.pint 1)) = .ok ""
  ∧ validate_option_values (doc_port_only (.pint 8080)) = .ok ""
  ∧ validate_option_values (doc_port_only (.pstr "abc")) =
      .ok ("Configuration option \x27port\x27 must be a number." ++ linesep)
  ∧ ("Port 0 is not valid port number." ++ linesep : String) ≠
      "Configuration option \x27port\x27 must be a number." ++ linesep := by
  refine ⟨?_, rfl, rfl, rfl, rfl, rfl, by decide⟩
  intro v
  rw [vov_port_only v]
  rcases hv : pyInt v with e | n
  · cases e with
    | keyError => exact absurd hv (pyInt_ne_keyError v)
    | valueError =>
        constructor
        · intro h
          exact absurd (Except.ok.inj h) (append_linesep_ne_empty _)
        · rintro ⟨m, hm, _, _⟩
          exact Except.noConfusion hm
    | attributeError =>
        constructor
        · intro h; exact Except.noConfusion h
        · rintro ⟨m, hm, _, _⟩; exact Except.noConfusion hm
    | typeError =>
        constructor
        · intro h; exact Except.noConfusion h
        · rintro ⟨m, hm, _, _⟩; exact Except.noConfusion hm
    | prometheusConfigError =>
        constructor
        · intro h; exact Except.noConfusion h
        · rintro ⟨m, hm, _, _⟩; exact Except.noConfusion hm
  · constructor
    · intro h
      have h2 : (Except.ok
          (if 0 < n ∧ n < 65535 then ""
           else "Port " ++ toString n ++ " is not valid port number." ++ linesep) :
            Except PyErr String) = Except.ok "" := h
      by_cases hr : 0 < n ∧ n < 65535
      · exact ⟨n, rfl, hr.1, hr.2⟩
      · rw [if_neg hr] at h2
        exact absurd (Except.ok.inj h2) (append_linesep_ne_empty _)
    · rintro ⟨m, hm, h1, h2⟩
      have hnm : n = m := Except.ok.inj hm
      subst hnm
      show (Except.ok
          (if 0 < n ∧ n < 65535 then ""
           else "Port " ++ toString n ++ " is not valid port number." ++ linesep) :
            Except PyErr String) = Except.ok ""
      rw [if_pos ⟨h1, h2⟩]

/-- C8 (confirmed): validation accumulates (missing-options line first, then
the value violations, concatenated line by line), fails exactly when at
least one violation exists, and the spec's scenario (customer name omitted,
scrape port "99999") reports both the missing-field line and the
out-of-range-port line in one error. -/
theorem C8_accumulation :
    (∀ (config : PyVal) (missing : List String) (ev : String),
       validate_required_options config = .ok missing →
       validate_option_values config = .ok ev →
       validate_config config =
         .ok (if missing = [] ∧ ev = "" then none
              else some ((if missing = [] then ""
                          else "Following config options are missing: " ++
                               String.intercalate ", " missing ++ linesep) ++ ev)))
  ∧ (∀ (config : PyVal) (missing : List String) (ev : String),
       validate_required_options config = .ok missing →
       validate_option_values config = .ok ev →
       ((∃ msg, validate_config config = .ok (some msg)) ↔ missing ≠ [] ∨ ev ≠ ""))
  ∧ cfg_c8.render = .ok doc_c8
  ∧ validate_config doc_c8 =
      .ok (some ("Following config options are missing: customer.name" ++ linesep ++
                 "Port 99999 is not valid port number." ++ linesep)) := by
  have key : ∀ (config : PyVal) (missing : List String) (ev : String),
      validate_required_options config = .ok missing →
      validate_option_values config = .ok ev →
      validate_config config =
        .ok (if missing = [] ∧ ev = "" then none
             else some ((if missing = [] then ""
                         else "Following config options are missing: " ++
                              String.intercalate ", " missing ++ linesep) ++ ev)) := by
    intro config missing ev hro hov
    unfold validate_config
    rw [hro, hov]
    cases missing with
    | nil =>
        simp only [List.isEmpty_nil, if_true, String.empty_append]
        by_cases hev : ev = ""
        · simp [hev]
        · simp [hev]
    | cons m ms =>
        simp only [List.isEmpty_cons, Bool.false_eq_true, if_false]
        rw [if_neg (append3_linesep_ne_empty _ _)]
        simp
  refine ⟨key, ?_, rfl, rfl⟩
  intro config missing ev hro hov
  rw [key config missing ev hro hov]
  by_cases hm : missing = []
  · by_cases hev : ev = ""
    · simp [hm, hev]
    · simp [hm, hev]
  · simp [hm]

/-- C8 witness: the general accumulation equation evaluated on the rendered
scenario document. -/
theorem C8_accumulation_witness :
    validate_config doc_c8 =
      .ok (if (["customer.name"] : List String) = [] ∧
              ("Port 99999 is not valid port number." ++ linesep : String) = "" then none
           else some ((if (["customer.name"] : List String) = [] then ""
                       else "Following config options are missing: " ++
                            String.intercalate ", " ["customer.name"] ++ linesep) ++
                      ("Port 99999 is not valid port number." ++ linesep))) :=
  C8_accumulation.1 doc_c8 ["customer.name"]
    ("Port 99999 is not valid port number." ++ linesep) rfl rfl

/-- C10 (confirmed): the required-option check tests truthiness, so any
present-but-falsy port value is reported as a missing option, and a port of
0 yields both the missing-option line and the invalid-port-number line in
the same validation result. -/
theorem C10_truthiness :
    (∀ v : PyVal, v.truthy = false →
       validate_required_options (doc_with_port v) = .ok ["exporter.port"])
  ∧ validate_config (doc_with_port (.pint 0)) =
      .ok (some ("Following config options are missing: exporter.port" ++ linesep ++
                 "Port 0 is not valid port number." ++ linesep)) := by
  refine ⟨?_, rfl⟩
  intro v hv
  cases v with
  | pnone => rfl
  | pstr s =>
      have hs : s = "" := by simpa [PyVal.truthy] using hv
      subst hs; rfl
  | pint n =>
      have hn : n = 0 := by simpa [PyVal.truthy] using hv
      subst hn; rfl
  | pbool b =>
      have hb : b = false := by simpa [PyVal.truthy] using hv
      subst hb; rfl
  | plist l =>
      have hl : l = [] := by simpa [PyVal.truthy, List.isEmpty_iff] using hv
      subst hl; rfl
  | pdict d =>
      have hd : d = [] := by simpa [PyVal.truthy, List.isEmpty_iff] using hv
      subst hd; rfl

/-- C10 witness: the truthiness-based missing check evaluated at port 0. -/
theorem C10_truthiness_witness :
    validate_required_options (doc_with_port (.pint 0)) = .ok ["exporter.port"] :=
  C10_truthiness.1 (.pint 0) rfl

example : fingerprint doc_ok =
    "2b54917dae49b704ad11224719e5150d2fde03c1e7cd24c89b2dbd59b0f0c2f6" := by decide
example : fingerprint doc_perm =
    "bc41fcbb14764be84961c67bee072605f34b9cc526bc530cf8b7e234fd312bdf" := by decide

/-- C3 counterexample: `doc_ok` and `doc_perm` are structurally equal Python
dicts (same bindings, `debug` key moved to the end), yet their fingerprints
(`sha256` of `str(dict)`, which is insertion-order sensitive) differ. -/
theorem C3_counterexample :
    pyEq doc_ok doc_perm = true ∧ fingerprint doc_ok ≠ fingerprint doc_perm := by
  exact ⟨by decide, by decide⟩

/-- C3 (amended): the fingerprint is a digest of the document's Python
string serialization, so documents with identical serializations (in
particular identical documents) hash identically; but the serialization is
sensitive to dict key order, so structurally equal documents with permuted
keys can hash differently — fingerprint equality does not coincide with
structural equality. -/
theorem C3_amended :
    (∀ d1 d2 : PyVal, pyRepr d1 = pyRepr d2 → fingerprint d1 = fingerprint d2)
  ∧ pyEq doc_ok doc_perm = true
  ∧ fingerprint doc_ok ≠ fingerprint doc_perm := by
  refine ⟨?_, by decide, by decide⟩
  intro d1 d2 h
  unfold fingerprint
  rw [h]

/-- C3 amended witness: serialization-equality implies fingerprint equality,
applied at a concrete document. -/
theorem C3_amended_witness : fingerprint doc_ok = fingerprint doc_ok :=
  C3_amended.1 doc_ok doc_ok rfl

/-- C1 counterexample: on a pass whose rendered configuration fails
validation, the externally visible status message is the fixed string
"Invalid configuration. Please see logs.", not the violation text — the
(translated) violation text goes to the log only. -/
theorem C1_counterexample :
    configurePass cfg_c1 env_ok s0_fresh =
      .ok (⟨none, .blocked "Invalid configuration. Please see logs.", none, []⟩,
           ⟨0, 0, 0, 2, ["Following config options are missing: customer" ++ linesep]⟩)
    ∧ ("Invalid configuration. Please see logs." : String) ≠
        "Following config options are missing: customer" ++ linesep := by
  exact ⟨rfl, by decide⟩

/-- C1 (amended): when validation of the rendered configuration fails, the
pass transitions to `Blocked` with the fixed reason "Invalid configuration.
Please see logs.", logs the full violation text with option paths translated
to their caller-facing names, and returns without updating the stored
fingerprint and without any apply or restart. -/
theorem C1_amended (cfg : ExporterConfig) (env : PassEnv) (s0 : CharmState)
    (doc : PyVal) (msg : String)
    (hconn : env.can_connect = true)
    (hrender : cfg.render = .ok doc)
    (hval : validate_config doc = .ok (some msg))
    (hne : some (fingerprint doc) ≠ s0.current_config_hash) :
    configurePass cfg env s0 =
      .ok ({ s0 with unit_status := .blocked "Invalid configuration. Please see logs." },
           ⟨0, 0, 0, 2, [translateErr msg]⟩) := by
  unfold configurePass
  rw [hconn, hrender]
  simp only [Bool.true_eq_false, if_false]
  rw [if_pos hne]
  unfold apply_config
  rw [hval]
  rfl

/-- C1 amended witness: the blocked-with-translated-log behavior evaluated on
the concrete invalid configuration. -/
theorem C1_amended_witness :
    configurePass cfg_c1 env_ok s0_fresh =
      .ok ({ s0_fresh with unit_status := .blocked "Invalid configuration. Please see logs." },
           ⟨0, 0, 0, 2,
            [translateErr ("Following config options are missing: customer.name" ++ linesep)]⟩) :=
  C1_amended cfg_c1 env_ok s0_fresh doc_c1
    ("Following config options are missing: customer.name" ++ linesep)
    rfl rfl rfl (by simp [s0_fresh])

/-- A pass over a changed, valid configuration with a successful push:
`_configure` runs the apply step (push, fingerprint update) and proceeds to
the post-apply tail with the restart flag set. -/
theorem pass_changed (cfg : ExporterConfig) (env : PassEnv) (s0 : CharmState)
    (doc : PyVal)
    (hconn : env.can_connect = true)
    (hrender : cfg.render = .ok doc)
    (hval : validate_config doc = .ok none)
    (hne : some (fingerprint doc) ≠ s0.current_config_hash)
    (hpush : env.push_ok = true) :
    configurePass cfg env s0 =
      afterApply env
        ⟨some (fingerprint doc), .maintenance "Processing new charm configuration.",
         some doc, s0.plan_services⟩
        ⟨1, 0, 0, 1, []⟩ true := by
  unfold configurePass
  rw [hconn, hrender]
  simp only [Bool.true_eq_false, if_false]
  rw [if_pos (show some (fingerprint doc) ≠
        (CharmState.mk s0.current_config_hash
          (Status.maintenance "Processing new charm configuration.")
          s0.container_config s0.plan_services).current_config_hash from hne)]
  unfold apply_config
  rw [hval, hpush]
  rfl

/-- A pass over a changed, valid configuration whose push raises
`ConnectionError`: the failure is logged, the fingerprint and pushed content
are left alone, and the pass proceeds to the post-apply tail with the
restart flag still set. -/
theorem pass_changed_pushfail (cfg : ExporterConfig) (env : PassEnv) (s0 : CharmState)
    (doc : PyVal)
    (hconn : env.can_connect = true)
    (hrender : cfg.render = .ok doc)
    (hval : validate_config doc = .ok none)
    (hne : some (fingerprint doc) ≠ s0.current_config_hash)
    (hpush : env.push_ok = false) :
    configurePass cfg env s0 =
      afterApply env
        ⟨s0.current_config_hash, .maintenance "Processing new charm configuration.",
         s0.container_config, s0.plan_services⟩
        ⟨0, 0, 0, 1, [pushFailMsg]⟩ true := by
  unfold configurePass
  rw [hconn, hrender]
  simp only [Bool.true_eq_false, if_false]
  rw [if_pos (show some (fingerprint doc) ≠
        (CharmState.mk s0.current_config_hash
          (Status.maintenance "Processing new charm configuration.")
          s0.container_config s0.plan_services).current_config_hash from hne)]
  unfold apply_config
  rw [hval, hpush]
  rfl

/-- A pass over an unchanged configuration: the whole apply block is skipped
and the pass proceeds to the post-apply tail with the restart flag clear. -/
theorem pass_unchanged (cfg : ExporterConfig) (env : PassEnv) (s0 : CharmState)
    (doc : PyVal)
    (hconn : env.can_connect = true)
    (hrender : cfg.render = .ok doc)
    (heq : some (fingerprint doc) = s0.current_config_hash) :
    configurePass cfg env s0 =
      afterApply env
        ⟨s0.current_config_hash, .maintenance "Processing new charm configuration.",
         s0.container_config, s0.plan_services⟩
        ⟨0, 0, 0, 1, []⟩ false := by
  unfold configurePass
  rw [hconn, hrender]
  simp only [Bool.true_eq_false, if_false]
  rw [if_neg (not_not_intro (show some (fingerprint doc) =
        (CharmState.mk s0.current_config_hash
          (Status.maintenance "Processing new charm configuration.")
          s0.container_config s0.plan_services).current_config_hash from heq))]
  rfl

/-- With the restart flag already set, the post-apply tail always enters
`restart_pje` (recording the attempt), provided the scrape-target step does
not raise. -/
theorem afterApply_restart (env : PassEnv) (s : CharmState) (lg : PassLog)
    (hscrape : env.scrape_ok = true) :
    afterApply env s lg true =
      .ok (restart_pje env s { lg with restart_attempts := lg.restart_attempts + 1 }) := by
  simp [afterApply, hscrape]

/-- With the restart flag clear, the post-apply tail restarts exactly when
the installed services map differs (as a Python dict) from the built
layer's. -/
theorem afterApply_noflag (env : PassEnv) (s : CharmState) (lg : PassLog)
    (hscrape : env.scrape_ok = true) :
    afterApply env s lg false =
      if pyEq (.pdict s.plan_services) (.pdict build_layer_services) then
        .ok (maybeSetActive s lg)
      else
        .ok (restart_pje env s { lg with restart_attempts := lg.restart_attempts + 1 }) := by
  cases h : pyEq (.pdict s.plan_services) (.pdict build_layer_services) <;>
    simp [afterApply, hscrape, h]

/-- A fully successful `restart_pje`: layer installed, service restarted,
status `Active`. -/
theorem restart_pje_success (env : PassEnv) (s : CharmState) (lg : PassLog)
    (hadd : env.add_layer_ok = true) (hres : env.restart_ok = true) :
    restart_pje env s lg =
      ({ s with plan_services := combineServices s.plan_services build_layer_services,
                unit_status := .active },
       { lg with restarts := lg.restarts + 1, status_writes := lg.status_writes + 1 }) := by
  simp [restart_pje, hadd, hres]

/-- A failed `restart_pje` (supervisor rejected the install or the restart):
the unit status is left exactly as it was, no restart is recorded, and the
error is appended to the log. -/
theorem restart_pje_failure (env : PassEnv) (s : CharmState) (lg : PassLog)
    (h : env.add_layer_ok = false ∨ env.restart_ok = false) :
    (restart_pje env s lg).1.unit_status = s.unit_status
    ∧ (restart_pje env s lg).2.restarts = lg.restarts
    ∧ (restart_pje env s lg).2.errors_logged = lg.errors_logged ++ [restartFailMsg env] := by
  rcases h with h | h
  · simp [restart_pje, h]
  · cases ha : env.add_layer_ok <;> simp [restart_pje, ha, h]

/-- `restart_pje` never changes the recorded pushes, restart attempts, or
the stored fingerprint. -/
theorem restart_pje_frame (env : PassEnv) (s : CharmState) (lg : PassLog) :
    (restart_pje env s lg).2.pushes = lg.pushes
    ∧ (restart_pje env s lg).2.restart_attempts = lg.restart_attempts
    ∧ (restart_pje env s lg).1.current_config_hash = s.current_config_hash := by
  cases ha : env.add_layer_ok <;> cases hr : env.restart_ok <;>
    simp [restart_pje, ha, hr]

/-- `maybeSetActive` only ever touches the unit status and the write
counter, and always lands on `Active`. -/
theorem maybeSetActive_frame (s : CharmState) (lg : PassLog) :
    (maybeSetActive s lg).2.pushes = lg.pushes
    ∧ (maybeSetActive s lg).2.restart_attempts = lg.restart_attempts
    ∧ (maybeSetActive s lg).2.restarts = lg.restarts
    ∧ (maybeSetActive s lg).1.current_config_hash = s.current_config_hash
    ∧ ((maybeSetActive s lg).1.unit_status = .active ∨
        (maybeSetActive s lg).1.unit_status = s.unit_status) := by
  by_cases h : s.unit_status.isActive <;> simp [maybeSetActive, h]

/-- `restart_pje` either reaches `Active` or leaves the status exactly as it
found it. -/
theorem restart_pje_status (env : PassEnv) (s : CharmState) (lg : PassLog) :
    (restart_pje env s lg).1.unit_status = .active ∨
    (restart_pje env s lg).1.unit_status = s.unit_status := by
  cases ha : env.add_layer_ok <;> cases hr : env.restart_ok <;>
    simp [restart_pje, ha, hr]

/-- `restart_pje` never drops previously logged errors. -/
theorem restart_pje_errors_mono (env : PassEnv) (s : CharmState) (lg : PassLog)
    (x : String) (hx : x ∈ lg.errors_logged) :
    x ∈ (restart_pje env s lg).2.errors_logged := by
  cases ha : env.add_layer_ok <;> cases hr : env.restart_ok <;>
    simp [restart_pje, ha, hr, hx]

/-- `restart_pje` when `add_layer` raises: state untouched, error logged. -/
theorem restart_pje_addfail (env : PassEnv) (s : CharmState) (lg : PassLog)
    (ha : env.add_layer_ok = false) :
    restart_pje env s lg =
      (s, { lg with errors_logged := lg.errors_logged ++ [restartFailMsg env] }) := by
  simp [restart_pje, ha]

/-- `restart_pje` when the layer is added but the restart call raises: plan
updated, status untouched, error logged. -/
theorem restart_pje_resfail (env : PassEnv) (s : CharmState) (lg : PassLog)
    (ha : env.add_layer_ok = true) (hr : env.restart_ok = false) :
    restart_pje env s lg =
      ({ s with plan_services := combineServices s.plan_services build_layer_services },
       { lg with errors_logged := lg.errors_logged ++ [restartFailMsg env] }) := by
  simp [restart_pje, ha, hr]

/-- C4 (confirmed): from a fresh controller state (no stored fingerprint,
empty plan), two consecutive passes over the same valid raw options perform
exactly one push and one restart on the first pass and none on the second,
both passes ending `Active`; and the no-restart tail writes `Active` only
when the status is not already `Active`. -/
theorem C4_convergence (cfg : ExporterConfig) (env : PassEnv) (s0 : CharmState)
    (doc : PyVal)
    (hconn : env.can_connect = true) (hpush : env.push_ok = true)
    (hadd : env.add_layer_ok = true) (hres : env.restart_ok = true)
    (hscrape : env.scrape_ok = true)
    (hrender : cfg.render = .ok doc)
    (hval : validate_config doc = .ok none)
    (h0 : s0.current_config_hash = none)
    (hp0 : s0.plan_services = []) :
    ∃ s1 lg1 s2 lg2,
      configurePass cfg env s0 = .ok (s1, lg1)
      ∧ configurePass cfg env s1 = .ok (s2, lg2)
      ∧ lg1.pushes = 1 ∧ lg1.restarts = 1
      ∧ lg2.pushes = 0 ∧ lg2.restarts = 0
      ∧ s1.unit_status = .active ∧ s2.unit_status = .active
      ∧ (∀ (st : CharmState) (lg : PassLog),
           st.unit_status.isActive = true → maybeSetActive st lg = (st, lg)) := by
  have hne : some (fingerprint doc) ≠ s0.current_config_hash := by
    rw [h0]; simp
  have e1 := pass_changed cfg env s0 doc hconn hrender hval hne hpush
  rw [afterApply_restart env _ _ hscrape, restart_pje_success env _ _ hadd hres,
      hp0] at e1
  have e1x : configurePass cfg env s0 =
      .ok (⟨some (fingerprint doc), .active, some doc, build_layer_services⟩,
           ⟨1, 1, 1, 2, []⟩) := e1
  have e2x : configurePass cfg env
        ⟨some (fingerprint doc), .active, some doc, build_layer_services⟩ =
      .ok (⟨some (fingerprint doc), .active, some doc, build_layer_services⟩,
           ⟨0, 0, 0, 2, []⟩) := by
    rw [pass_unchanged cfg env _ doc hconn hrender rfl,
        afterApply_noflag env _ _ hscrape]
    rfl
  refine ⟨_, _, _, _, e1x, e2x, rfl, rfl, rfl, rfl, rfl, rfl, ?_⟩
  intro st lg h
  simp [maybeSetActive, h]

/-- C4 witness: the two-pass convergence evaluated on the concrete valid
configuration from a fresh state. -/
theorem C4_convergence_witness :
    ∃ s1 lg1 s2 lg2,
      configurePass cfg_ok env_ok s0_fresh = .ok (s1, lg1)
      ∧ configurePass cfg_ok env_ok s1 = .ok (s2, lg2)
      ∧ lg1.pushes = 1 ∧ lg1.restarts = 1
      ∧ lg2.pushes = 0 ∧ lg2.restarts = 0
      ∧ s1.unit_status = .active ∧ s2.unit_status = .active
      ∧ (∀ (st : CharmState) (lg : PassLog),
           st.unit_status.isActive = true → maybeSetActive st lg = (st, lg)) :=
  C4_convergence cfg_ok env_ok s0_fresh doc_ok rfl rfl rfl rfl rfl rfl rfl rfl rfl

/-- C5 (confirmed): when the configuration changed but the push to the
configuration target fails, the stored fingerprint is not advanced, the
failure is logged, and the pass still proceeds to the definition-diff and
restart steps without transitioning to `Blocked`. -/
theorem C5_apply_failure (cfg : ExporterConfig) (env : PassEnv) (s0 : CharmState)
    (doc : PyVal)
    (hconn : env.can_connect = true)
    (hscrape : env.scrape_ok = true)
    (hpush : env.push_ok = false)
    (hrender : cfg.render = .ok doc)
    (hval : validate_config doc = .ok none)
    (hne : some (fingerprint doc) ≠ s0.current_config_hash) :
    ∃ s' lg, configurePass cfg env s0 = .ok (s', lg)
      ∧ s'.current_config_hash = s0.current_config_hash
      ∧ pushFailMsg ∈ lg.errors_logged
      ∧ lg.pushes = 0
      ∧ lg.restart_attempts = 1
      ∧ s'.unit_status.isBlocked = false := by
  have e1 := pass_changed_pushfail cfg env s0 doc hconn hrender hval hne hpush
  rw [afterApply_restart env _ _ hscrape] at e1
  cases ha : env.add_layer_ok
  · rw [restart_pje_addfail env _ _ ha] at e1
    exact ⟨_, _, e1, rfl, by simp, rfl, rfl, rfl⟩
  · cases hr : env.restart_ok
    · rw [restart_pje_resfail env _ _ ha hr] at e1
      exact ⟨_, _, e1, rfl, by simp, rfl, rfl, rfl⟩
    · rw [restart_pje_success env _ _ ha hr] at e1
      exact ⟨_, _, e1, rfl, by simp, rfl, rfl, rfl⟩

/-- C5 witness: the retry-preserving apply failure evaluated on the concrete
valid configuration with a refused push. -/
theorem C5_apply_failure_witness :
    ∃ s' lg,
      configurePass cfg_ok ⟨true, false, true, true, "boom", true⟩ s0_fresh = .ok (s', lg)
      ∧ s'.current_config_hash = s0_fresh.current_config_hash
      ∧ pushFailMsg ∈ lg.errors_logged
      ∧ lg.pushes = 0
      ∧ lg.restart_attempts = 1
      ∧ s'.unit_status.isBlocked = false :=
  C5_apply_failure cfg_ok ⟨true, false, true, true, "boom", true⟩ s0_fresh doc_ok
    rfl rfl rfl rfl rfl (by simp [s0_fresh])

/-- C6 (confirmed): when a restart is needed and the supervisor rejects the
install or the restart, the error is logged, the status stays exactly where
it was (the pass's `Maintenance`, not escalated to `Blocked`), and the pass
ends without reaching `Active`. -/
theorem C6_restart_failure (cfg : ExporterConfig) (env : PassEnv) (s0 : CharmState)
    (doc : PyVal)
    (hconn : env.can_connect = true)
    (hscrape : env.scrape_ok = true)
    (hpush : env.push_ok = true)
    (hfail : env.add_layer_ok = false ∨ env.restart_ok = false)
    (hrender : cfg.render = .ok doc)
    (hval : validate_config doc = .ok none)
    (hne : some (fingerprint doc) ≠ s0.current_config_hash) :
    (∃ s' lg, configurePass cfg env s0 = .ok (s', lg)
      ∧ s'.unit_status = .maintenance "Processing new charm configuration."
      ∧ s'.unit_status ≠ .active
      ∧ s'.unit_status.isBlocked = false
      ∧ restartFailMsg env ∈ lg.errors_logged
      ∧ lg.restarts = 0)
    ∧ (∀ (e2 : PassEnv) (st : CharmState) (lg2 : PassLog),
         e2.add_layer_ok = false ∨ e2.restart_ok = false →
         (restart_pje e2 st lg2).1.unit_status = st.unit_status
         ∧ (restart_pje e2 st lg2).2.restarts = lg2.restarts) := by
  constructor
  · have e1 := pass_changed cfg env s0 doc hconn hrender hval hne hpush
    rw [afterApply_restart env _ _ hscrape] at e1
    rcases hfail with ha | hr
    · rw [restart_pje_addfail env _ _ ha] at e1
      exact ⟨_, _, e1, rfl, fun h => Status.noConfusion h, rfl, by simp, rfl⟩
    · cases ha2 : env.add_layer_ok
      · rw [restart_pje_addfail env _ _ ha2] at e1
        exact ⟨_, _, e1, rfl, fun h => Status.noConfusion h, rfl, by simp, rfl⟩
      · rw [restart_pje_resfail env _ _ ha2 hr] at e1
        exact ⟨_, _, e1, rfl, fun h => Status.noConfusion h, rfl, by simp, rfl⟩
  · intro e2 st lg2 h2
    exact ⟨(restart_pje_failure e2 st lg2 h2).1, (restart_pje_failure e2 st lg2 h2).2.1⟩

/-- C6 witness: the unchanged-status restart failure evaluated on the
concrete valid configuration with a rejecting supervisor. -/
theorem C6_restart_failure_witness :
    (∃ s' lg,
      configurePass cfg_ok ⟨true, true, true, false, "boom", true⟩ s0_fresh = .ok (s', lg)
      ∧ s'.unit_status = .maintenance "Processing new charm configuration."
      ∧ s'.unit_status ≠ .active
      ∧ s'.unit_status.isBlocked = false
      ∧ restartFailMsg ⟨true, true, true, false, "boom", true⟩ ∈ lg.errors_logged
      ∧ lg.restarts = 0)
    ∧ (∀ (e2 : PassEnv) (st : CharmState) (lg2 : PassLog),
         e2.add_layer_ok = false ∨ e2.restart_ok = false →
         (restart_pje e2 st lg2).1.unit_status = st.unit_status
         ∧ (restart_pje e2 st lg2).2.restarts = lg2.restarts) :=
  C6_restart_failure cfg_ok ⟨true, true, true, false, "boom", true⟩ s0_fresh doc_ok
    rfl rfl rfl (Or.inr rfl) rfl rfl (by simp [s0_fresh])

/-- C9 (confirmed): the restart decision is the OR of the
fingerprint-changed signal and the process-definition-drift signal; in
particular, definition drift alone triggers a restart attempt with zero
pushes. -/
theorem C9_or_decision (cfg : ExporterConfig) (env : PassEnv) (s0 : CharmState)
    (doc : PyVal)
    (hconn : env.can_connect = true)
    (hscrape : env.scrape_ok = true)
    (hrender : cfg.render = .ok doc)
    (hval : validate_config doc = .ok none) :
    ∃ s' lg, configurePass cfg env s0 = .ok (s', lg)
      ∧ (lg.restart_attempts = 1 ↔
          (some (fingerprint doc) ≠ s0.current_config_hash ∨
           pyEq (.pdict s0.plan_services) (.pdict build_layer_services) = false))
      ∧ (some (fingerprint doc) = s0.current_config_hash → lg.pushes = 0) := by
  by_cases hch : some (fingerprint doc) = s0.current_config_hash
  · have e1 := pass_unchanged cfg env s0 doc hconn hrender hch
    rw [afterApply_noflag env _ _ hscrape] at e1
    cases hpe : pyEq (.pdict s0.plan_services) (.pdict build_layer_services)
    · rw [if_neg (show ¬(pyEq
          (.pdict (⟨s0.current_config_hash,
              Status.maintenance "Processing new charm configuration.",
              s0.container_config, s0.plan_services⟩ : CharmState).plan_services)
          (.pdict build_layer_services) = true) from
            fun hcon => Bool.noConfusion (hpe.symm.trans hcon))] at e1
      refine ⟨_, _, e1,
        iff_of_true (restart_pje_frame _ _ _).2.1 (Or.inr rfl),
        fun _ => (restart_pje_frame _ _ _).1⟩
    · rw [if_pos (show pyEq
          (.pdict (⟨s0.current_config_hash,
              Status.maintenance "Processing new charm configuration.",
              s0.container_config, s0.plan_services⟩ : CharmState).plan_services)
          (.pdict build_layer_services) = true from hpe)] at e1
      refine ⟨_, _, e1, ?_, fun _ => rfl⟩
      apply iff_of_false
      · intro hcon
        exact absurd hcon (by decide)
      · rintro (h | h)
        · exact h hch
        · exact Bool.noConfusion h
  · cases hp : env.push_ok
    · have e1 := pass_changed_pushfail cfg env s0 doc hconn hrender hval hch hp
      rw [afterApply_restart env _ _ hscrape] at e1
      exact ⟨_, _, e1,
        iff_of_true (restart_pje_frame _ _ _).2.1 (Or.inl hch),
        fun hcon => absurd hcon hch⟩
    · have e1 := pass_changed cfg env s0 doc hconn hrender hval hch hp
      rw [afterApply_restart env _ _ hscrape] at e1
      exact ⟨_, _, e1,
        iff_of_true (restart_pje_frame _ _ _).2.1 (Or.inl hch),
        fun hcon => absurd hcon hch⟩

/-- C9 witness: definition drift alone (fingerprint stored, plan empty)
triggers a restart attempt with zero pushes. -/
theorem C9_or_decision_witness :
    ∃ s' lg,
      configurePass cfg_ok env_ok
        ⟨some (fingerprint doc_ok), .active, some doc_ok, []⟩ = .ok (s', lg)
      ∧ (lg.restart_attempts = 1 ↔
          (some (fingerprint doc_ok) ≠
            (⟨some (fingerprint doc_ok), Status.active, some doc_ok, []⟩ :
              CharmState).current_config_hash ∨
           pyEq (.pdict (⟨some (fingerprint doc_ok), Status.active, some doc_ok, []⟩ :
              CharmState).plan_services) (.pdict build_layer_services) = false))
      ∧ (some (fingerprint doc_ok) =
           (⟨some (fingerprint doc_ok), Status.active, some doc_ok, []⟩ :
             CharmState).current_config_hash → lg.pushes = 0) :=
  C9_or_decision cfg_ok env_ok ⟨some (fingerprint doc_ok), .active, some doc_ok, []⟩
    doc_ok rfl rfl rfl rfl
